import Mathlib

/-
  Verification of the mcpize CLI session manager and tunnel lifecycle.

  Shallow embedding of:
  - src/lib/config.ts      (persisted session storage: loadConfig, saveConfig,
                            setSession, getToken, getRefreshToken, isTokenExpired)
  - src/lib/auth.ts        (session manager: refreshAccessToken, getValidToken) in
                            its two variants present in the repository: the
                            concurrency-aware one (src/unnamed/part_006) and the
                            older one (src/src/lib/auth.ts)
  - src/tunnel/index.ts    (detectBestProvider, createTunnel)
  - src/tunnel/providers   (cloudflared, ngrok, localtunnel)

  Stateful TypeScript is embedded by explicit oracle passing: every call to
  loadConfig performed by the process under scrutiny is indexed by a read
  counter, and an environment supplies the file content and the clock observed
  at each read (this models arbitrary interference by sibling CLI processes
  between two reads).  The observable behaviour of a call is collected in a
  trace: the returned token, the list of configs handed to saveConfig, the
  millisecond delays slept, and the number of refresh HTTP calls issued.
-/

namespace MCPizeCLI

/-- Persisted session config (src/lib/config.ts, interface MCPizeConfig).
`expiresAt` is a Unix timestamp in seconds. -/
structure MCPizeConfig where
  token : Option String := none
  refreshToken : Option String := none
  expiresAt : Option Int := none
deriving DecidableEq

/-- JavaScript truthiness of a `string | undefined | null` value:
`undefined`/`null` and the empty string are falsy. -/
def truthy : Option String → Bool
  | none => false
  | some s => s ≠ ""

/-- The state of the config file as found by one read: absent, unreadable
(readFileSync throws), readable but not valid JSON (JSON.parse throws), or a
parsed config value. -/
inductive FileState
  | missing
  | unreadable
  | corrupt (raw : String)
  | valid (cfg : MCPizeConfig)
deriving DecidableEq

/-- loadConfig (src/lib/config.ts): returns `{}` when the file is missing and
catches every read/parse failure, returning `{}`; otherwise the parsed value. -/
def loadConfig : FileState → MCPizeConfig
  | .valid cfg => cfg
  | _ => {}

/-- getToken (src/lib/config.ts): the `token` field of the loaded config. -/
def getToken (fs : FileState) : Option String :=
  (loadConfig fs).token

/-- getRefreshToken (src/lib/config.ts): the `refreshToken` field of the
loaded config. -/
def getRefreshToken (fs : FileState) : Option String :=
  (loadConfig fs).refreshToken

/-- Oracle for one process execution: `file k` is the config-file state seen by
the k-th read the process performs, and `clock k` is `Date.now()/1000` (in
seconds) at that read.  Successive reads may observe different contents,
modelling concurrent sibling CLI processes rewriting the shared file. -/
structure Env where
  file : Nat → FileState
  clock : Nat → Int

/-- The parsed config observed at the k-th read. -/
def Env.config (env : Env) (k : Nat) : MCPizeConfig :=
  loadConfig (env.file k)

/-- getToken() as performed at the k-th read of this execution. -/
def getTokenAt (env : Env) (k : Nat) : Option String :=
  (env.config k).token

/-- getRefreshToken() as performed at the k-th read of this execution. -/
def getRefreshTokenAt (env : Env) (k : Nat) : Option String :=
  (env.config k).refreshToken

/-- isTokenExpired (src/lib/config.ts): loads the config; a falsy `expiresAt`
(absent or 0) counts as expired; otherwise expired when the clock is past
`expiresAt - 60` (60-second safety margin). -/
def isTokenExpiredAt (env : Env) (k : Nat) : Bool :=
  match (env.config k).expiresAt with
  | none => true
  | some e => if e = 0 then true else decide (env.clock k > e - 60)

/-- JavaScript String.prototype.trim, at the character-list level. -/
def jsTrim (s : String) : String :=
  String.mk (((s.toList.dropWhile Char.isWhitespace).reverse.dropWhile
    Char.isWhitespace).reverse)

/-- JavaScript String.prototype.toLowerCase on ASCII, at the character-list
level. -/
def jsToLower (s : String) : String :=
  String.mk (s.toList.map Char.toLower)

/-- Whether `pat` occurs at the start of `l` (character-wise equality). -/
def startsWithChars : List Char → List Char → Bool
  | [], _ => true
  | _ :: _, [] => false
  | p :: ps, c :: cs => p = c && startsWithChars ps cs

/-- Whether `pat` occurs anywhere inside `l` (JavaScript String.includes). -/
def containsChars (pat : List Char) : List Char → Bool
  | [] => pat.isEmpty
  | c :: cs => startsWithChars pat (c :: cs) || containsChars pat cs

/-- JavaScript `s.includes(pat)`. -/
def strIncludes (s pat : String) : Bool :=
  containsChars pat.toList s.toList

/-- Body of a successful refresh response (src/lib/auth.ts, RefreshResponse). -/
structure RefreshResponse where
  access_token : String
  refresh_token : String
  expires_in : Int
deriving DecidableEq

/-- Parsed body of a failed refresh response (src/lib/auth.ts, RefreshError);
every field may be absent. -/
structure RefreshError where
  error : Option String := none
  error_description : Option String := none
  msg : Option String := none
  message : Option String := none
  error_code : Option String := none
deriving DecidableEq

/-- Outcome of the one refresh HTTP call: the fetch (or a later response.json()
on a success body) threw, an HTTP error status with an optional parsed JSON
body (`none` when the error body failed to parse), or a parsed success body. -/
inductive FetchOutcome
  | networkError (msg : String)
  | httpError (status : Nat) (body : Option RefreshError)
  | success (resp : RefreshResponse)
deriving DecidableEq

/-- JavaScript `a || b` on string-ish values: keeps `a` when truthy. -/
def jsPick (o : Option String) (alt : String) : String :=
  match o with
  | some s => if s = "" then alt else s
  | none => alt

/-- The error message computed by refreshAccessToken (src/unnamed/part_006,
lines 92-111): `error_description || msg || message || error ||
(error_code ? "Error code: " + error_code : "HTTP " + status)`. -/
def refreshErrorMessage (status : Nat) (body : Option RefreshError) : String :=
  let base := "HTTP " ++ toString status
  match body with
  | none => base
  | some e =>
    let codeMsg :=
      match e.error_code with
      | some c => if c = "" then base else "Error code: " ++ c
      | none => base
    jsPick e.error_description
      (jsPick e.msg (jsPick e.message (jsPick e.error codeMsg)))

/-- The "Already Used" detection (src/unnamed/part_006, lines 105-108):
case-insensitive containment of "already used" or "refresh_token_reuse" in the
error message. -/
def isAlreadyUsedMsg (m : String) : Bool :=
  strIncludes (jsToLower m) "already used" ||
    strIncludes (jsToLower m) "refresh_token_reuse"

/-- Observable trace of one session-manager call: the returned token, the
configs handed to saveConfig (in order), the setTimeout delays awaited (ms, in
order), and the number of refresh HTTP calls issued. -/
structure AuthOutcome where
  result : Option String
  writes : List MCPizeConfig
  sleeps : List Nat
  fetches : Nat
deriving DecidableEq

/-- setSession (src/lib/config.ts, lines 115-125) as performed at the k-th
read: loads the config, sets token, refreshToken and
`expiresAt = floor(Date.now()/1000) + expiresIn`, and returns the single config
value handed to saveConfig, together with the next read index. -/
def setSessionAt (env : Env) (k : Nat) (accessToken refreshToken : String)
    (expiresIn : Int) : MCPizeConfig × Nat :=
  let cfg := env.config k
  ({ cfg with
      token := some accessToken
      refreshToken := some refreshToken
      expiresAt := some (env.clock k + expiresIn) }, k + 1)

/-- The "Already Used" retry loop of refreshAccessToken (src/unnamed/part_006,
lines 114-128): up to `fuel` more iterations, current iteration index `retry`,
next read index `k`.  Each iteration sleeps `500 * (retry + 1)` ms, re-reads
the persisted refresh token, and returns the persisted access token if the
refresh token changed from `orig` and the persisted access token is truthy and
not expired.  Returns (result, next read index, delays slept). -/
def reuseRetryLoop (env : Env) (orig : String) :
    Nat → Nat → Nat → Option String × Nat × List Nat
  | 0, _, k => (none, k, [])
  | fuel + 1, retry, k =>
    let slp := 500 * (retry + 1)
    let cur := getRefreshTokenAt env k
    if truthy cur ∧ cur ≠ some orig then
      let tok := getTokenAt env (k + 1)
      if truthy tok then
        if isTokenExpiredAt env (k + 2) = false then
          (tok, k + 3, [slp])
        else
          let p := reuseRetryLoop env orig fuel (retry + 1) (k + 3)
          (p.1, p.2.1, slp :: p.2.2)
      else
        let p := reuseRetryLoop env orig fuel (retry + 1) (k + 2)
        (p.1, p.2.1, slp :: p.2.2)
    else
      let p := reuseRetryLoop env orig fuel (retry + 1) (k + 1)
      (p.1, p.2.1, slp :: p.2.2)

/-- refreshAccessToken (src/unnamed/part_006, lines 63-167), starting at read
index `k`.  Captures the original refresh token, short-circuits when it is
missing/blank, then branches on the outcome of the single refresh HTTP call:
network error → null; HTTP error → "Already Used" retry loop or null; success →
optimistic-concurrency re-read, preferring a sibling's fresh session, otherwise
one setSession write. -/
def refreshAccessToken (env : Env) (fetch : FetchOutcome) (k : Nat) :
    AuthOutcome × Nat :=
  let orig := getRefreshTokenAt env k
  if ¬ truthy orig ∨ jsTrim (orig.getD "") = "" then
    (⟨none, [], [], 0⟩, k + 1)
  else
    match fetch with
    | .networkError _ => (⟨none, [], [], 1⟩, k + 1)
    | .httpError status body =>
      let errorMessage := refreshErrorMessage status body
      if isAlreadyUsedMsg errorMessage then
        let p := reuseRetryLoop env (orig.getD "") 3 0 (k + 1)
        (⟨p.1, [], p.2.2, 1⟩, p.2.1)
      else
        (⟨none, [], [], 1⟩, k + 1)
    | .success resp =>
      let cur := getRefreshTokenAt env (k + 1)
      if truthy cur ∧ cur ≠ some (orig.getD "") then
        let tok := getTokenAt env (k + 2)
        if truthy tok then
          if isTokenExpiredAt env (k + 3) = false then
            (⟨tok, [], [], 1⟩, k + 4)
          else
            let w := setSessionAt env (k + 4) resp.access_token
              resp.refresh_token resp.expires_in
            (⟨some resp.access_token, [w.1], [], 1⟩, w.2)
        else
          let w := setSessionAt env (k + 3) resp.access_token
            resp.refresh_token resp.expires_in
          (⟨some resp.access_token, [w.1], [], 1⟩, w.2)
      else
        let w := setSessionAt env (k + 2) resp.access_token
          resp.refresh_token resp.expires_in
        (⟨some resp.access_token, [w.1], [], 1⟩, w.2)

/-- getValidToken (src/unnamed/part_006, lines 174-210).  `tokenOverride` is
the in-process `--token` override, `envToken` the raw MCPIZE_TOKEN environment
variable.  Priority: override, then env token (both returned as-is), then the
persisted session with auto-refresh; a failed refresh yields null and no write. -/
def getValidToken (tokenOverride envToken : Option String) (env : Env)
    (fetch : FetchOutcome) : AuthOutcome :=
  if truthy tokenOverride then
    ⟨tokenOverride, [], [], 0⟩
  else if truthy envToken then
    ⟨envToken, [], [], 0⟩
  else
    let token := getTokenAt env 0
    if ¬ truthy token then
      ⟨none, [], [], 0⟩
    else if isTokenExpiredAt env 1 = false then
      ⟨token, [], [], 0⟩
    else
      (refreshAccessToken env fetch 2).1

/-- refreshAccessToken of the older session-manager variant
(src/src/lib/auth.ts, lines 46-92): no blank-trim check, no "Already Used"
handling, no optimistic-concurrency re-read; success saves the session
unconditionally, every failure returns null with no write. -/
def refreshAccessTokenOld (env : Env) (fetch : FetchOutcome) (k : Nat) :
    AuthOutcome × Nat :=
  let rt := getRefreshTokenAt env k
  if ¬ truthy rt then
    (⟨none, [], [], 0⟩, k + 1)
  else
    match fetch with
    | .networkError _ => (⟨none, [], [], 1⟩, k + 1)
    | .httpError _ _ => (⟨none, [], [], 1⟩, k + 1)
    | .success resp =>
      let w := setSessionAt env (k + 1) resp.access_token
        resp.refresh_token resp.expires_in
      (⟨some resp.access_token, [w.1], [], 1⟩, w.2)

/-- getValidToken of the older session-manager variant (src/src/lib/auth.ts,
lines 99-134): same priority order, but when the refresh fails it calls
clearSession() — loadConfig, delete token/refreshToken/expiresAt, saveConfig —
before returning null. -/
def getValidTokenOld (tokenOverride envToken : Option String) (env : Env)
    (fetch : FetchOutcome) : AuthOutcome :=
  if truthy tokenOverride then
    ⟨tokenOverride, [], [], 0⟩
  else if truthy envToken then
    ⟨envToken, [], [], 0⟩
  else
    let token := getTokenAt env 0
    if ¬ truthy token then
      ⟨none, [], [], 0⟩
    else if isTokenExpiredAt env 1 = false then
      ⟨token, [], [], 0⟩
    else
      let p := refreshAccessTokenOld env fetch 2
      match p.1.result with
      | none =>
        let cfg := env.config p.2
        ⟨none,
          p.1.writes ++
            [{ cfg with token := none, refreshToken := none, expiresAt := none }],
          p.1.sleeps, p.1.fetches⟩
      | some t => ⟨some t, p.1.writes, p.1.sleeps, p.1.fetches⟩

/-! ### Persistence primitive (src/lib/config.ts: saveConfig, setSession) -/

/-- One file-system operation performed by saveConfig, with the serialized
payload represented by the config value it encodes. -/
inductive FsOp
  | writeFile (path : String) (content : MCPizeConfig)
  | chmod (path : String)
  | rename (src : String) (dst : String)
deriving DecidableEq

/-- The config file path, relative to the config directory. -/
def CONFIG_FILE : String := "config.json"

/-- The temporary file name used by saveConfig:
`config.<16 random hex chars>.tmp` (the nonce is the randomBytes hex string). -/
def tmpFile (nonce : String) : String :=
  "config." ++ nonce ++ ".tmp"

/-- saveConfig (src/lib/config.ts, lines 48-72): writes the full JSON content
to a fresh temporary file, chmods it, then atomically renames it over the
config file.  The config file itself is never written directly. -/
def saveConfig (nonce : String) (config : MCPizeConfig) : List FsOp :=
  [FsOp.writeFile (tmpFile nonce) config,
   FsOp.chmod (tmpFile nonce),
   FsOp.rename (tmpFile nonce) CONFIG_FILE]

/-- setSession (src/lib/config.ts, lines 115-125) as a file-system trace:
loads the config (`prev`), sets token, refreshToken and
`expiresAt = now + expiresIn` together, and performs a single saveConfig. -/
def setSession (prev : MCPizeConfig) (now : Int)
    (accessToken refreshToken : String) (expiresIn : Int) (nonce : String) :
    List FsOp :=
  saveConfig nonce
    { prev with
        token := some accessToken
        refreshToken := some refreshToken
        expiresAt := some (now + expiresIn) }

/-! ### Tunnel lifecycle controller (src/tunnel/index.ts) -/

/-- The three tunnel providers (src/tunnel/types.ts, TunnelProviderType). -/
inductive TunnelProviderType
  | localtunnel
  | ngrok
  | cloudflared
deriving DecidableEq

/-- localtunnel.isAvailable (src/tunnel/providers/localtunnel.ts):
unconditionally true. -/
def localtunnelIsAvailable : Bool := true

/-- ngrok.isAvailable (src/tunnel/providers/ngrok.ts): truthiness of the
NGROK_AUTHTOKEN environment variable; no network call. -/
def ngrokIsAvailable (ngrokAuthtoken : Option String) : Bool :=
  truthy ngrokAuthtoken

/-- Result of detectBestProvider (src/tunnel/index.ts, lines 26-43). -/
structure Detected where
  provider : TunnelProviderType
  isDefault : Bool
deriving DecidableEq

/-- detectBestProvider (src/tunnel/index.ts, lines 26-43): cloudflared when
its probe succeeds, else ngrok when available, else localtunnel flagged as the
default fallback.  `cfAvail`/`ngAvail` are the two isAvailable results. -/
def detectBestProvider (cfAvail ngAvail : Bool) : Detected :=
  if cfAvail then ⟨.cloudflared, false⟩
  else if ngAvail then ⟨.ngrok, false⟩
  else ⟨.localtunnel, true⟩

/-- Observable outcome of createTunnel up to the connect call: which single
provider's connect was invoked, and whether the localtunnel fallback warning
was printed. -/
structure CreateTunnelOutcome where
  invoked : TunnelProviderType
  fallbackWarning : Bool
deriving DecidableEq

/-- createTunnel (src/tunnel/index.ts, lines 52-95): with a hint, gate on that
provider's availability (error with a remediation hint when unavailable);
without a hint, auto-select via detectBestProvider and print the fallback
warning exactly when localtunnel was chosen as the default. -/
def createTunnel (hint : Option TunnelProviderType) (cfAvail ngAvail : Bool) :
    Except String CreateTunnelOutcome :=
  match hint with
  | some t =>
    let avail :=
      match t with
      | .cloudflared => cfAvail
      | .ngrok => ngAvail
      | .localtunnel => localtunnelIsAvailable
    if avail then Except.ok ⟨t, false⟩
    else Except.error "Tunnel provider is not available."
  | none =>
    let d := detectBestProvider cfAvail ngAvail
    Except.ok ⟨d.provider, d.isDefault⟩

/-! ### cloudflared provider (src/tunnel/providers/cloudflared.ts) -/

/-- A character matched by the `[a-z0-9-]` class under the /i flag. -/
def isSubChar (c : Char) : Bool :=
  (decide ('a' ≤ c) && decide (c ≤ 'z')) ||
    (decide ('A' ≤ c) && decide (c ≤ 'Z')) ||
    (decide ('0' ≤ c) && decide (c ≤ '9')) || c = '-'

/-- Case-insensitive literal match of `pat` at the start of `l` (ASCII). -/
def ciStartsWith : List Char → List Char → Bool
  | [], _ => true
  | _ :: _, [] => false
  | p :: ps, c :: cs => p.toLower = c.toLower && ciStartsWith ps cs

/-- Attempt of the regex `https:\/\/[a-z0-9-]+\.trycloudflare\.com` (flag /i)
at the start of `l`; returns the matched text.  After the maximal `[a-z0-9-]`
run a literal `.` must follow, and `.` is outside the class, so the
maximal-munch run is the only candidate — no backtracking exists. -/
def matchCloudflareAt (l : List Char) : Option (List Char) :=
  if ciStartsWith ("https://".toList) l then
    let rest := l.drop ("https://".toList.length)
    let run := rest.takeWhile isSubChar
    if run = [] then none
    else if ciStartsWith (".trycloudflare.com".toList) (rest.dropWhile isSubChar) then
      some (l.take ("https://".toList.length + run.length +
        ".trycloudflare.com".toList.length))
    else none
  else none

/-- Leftmost regex match over a character list. -/
def findCloudflareUrlChars : List Char → Option (List Char)
  | [] => none
  | c :: cs =>
    match matchCloudflareAt (c :: cs) with
    | some m => some m
    | none => findCloudflareUrlChars cs

/-- `output.match(/https:\/\/[a-z0-9-]+\.trycloudflare\.com/i)` applied to one
stderr data chunk: the first match, in original case. -/
def findCloudflareUrl (s : String) : Option String :=
  (findCloudflareUrlChars s.toList).map String.mk

/-- One event emitted by the spawned cloudflared child process: a stderr data
chunk, an 'error' event (spawn failure), or a 'close' event with an exit code. -/
inductive ProcEvent
  | stderrData (chunk : String)
  | errorEvent (msg : String)
  | closeEvent (code : Int)
deriving DecidableEq

/-- How the connect promise of cloudflaredProvider settles. -/
inductive ConnectOutcome
  | connected (url : String)
  | failedSpawn (msg : String)
  | failedExit (code : Int)
  | timedOut
deriving DecidableEq

/-- An event together with its arrival time in ms since connect was called. -/
structure TimedEvent where
  time : Nat
  ev : ProcEvent
deriving DecidableEq

/-- How one handler invocation settles the promise, if at all
(src/tunnel/providers/cloudflared.ts, lines 63-102): a data chunk settles on
its first URL match; 'error' rejects with the spawn error; 'close' rejects
with the exit code. -/
def settleOf : ProcEvent → Option ConnectOutcome
  | .stderrData chunk => (findCloudflareUrl chunk).map ConnectOutcome.connected
  | .errorEvent m => some (.failedSpawn ("Failed to start cloudflared: " ++ m))
  | .closeEvent c =>
    some (.failedExit c)

/-- cloudflaredProvider.connect (src/tunnel/providers/cloudflared.ts, lines
42-104) over the time-ordered event trace of the child process: the promise
settles with the first settling event before the 30000 ms startup timer;
otherwise the timer kills the process and rejects with the timeout error.  The
Bool records whether the startup timer killed the process. -/
def cloudflaredConnect : List TimedEvent → ConnectOutcome × Bool
  | [] => (.timedOut, true)
  | e :: rest =>
    if e.time < 30000 then
      match settleOf e.ev with
      | some o => (o, false)
      | none => cloudflaredConnect rest
    else (.timedOut, true)

/-! ### localtunnel provider (src/tunnel/providers/localtunnel.ts) -/

/-- The retry loop of localtunnelProvider.connect (lines 30-55): `attempts n`
is the outcome of the n-th underlying `localtunnel({port})` call (1-based).
MAX_RETRIES = 3, RETRY_DELAY_MS = 2000; a failed non-final attempt sleeps
before the next one.  Returns the result and the delays slept. -/
def ltConnectAux (attempts : Nat → Except String String) :
    Nat → Nat → Option String → Except String String × List Nat
  | 0, _, lastError =>
    (Except.error ("Failed to create tunnel after 3 attempts: " ++
      lastError.getD "undefined"), [])
  | fuel + 1, attempt, _ =>
    match attempts attempt with
    | .ok url => (.ok url, [])
    | .error e =>
      let p := ltConnectAux attempts fuel (attempt + 1) (some e)
      if attempt < 3 then (p.1, 2000 :: p.2) else p

/-- localtunnelProvider.connect: three attempts starting at attempt 1. -/
def localtunnelConnect (attempts : Nat → Except String String) :
    Except String String × List Nat :=
  ltConnectAux attempts 3 1 none

/-! ### Connection close handles (claim about teardown idempotence) -/

/-- Child process state as seen by the close handle. -/
inductive ProcState
  | running
  | exited
deriving DecidableEq

/-- Node ChildProcess.kill: signals the process when running and is a no-op
returning false when it already exited; it does not throw for a handle the
caller owns. -/
def procKill : ProcState → ProcState
  | _ => .exited

/-- The close handle returned by cloudflaredProvider.connect (lines 79-81):
`proc.kill("SIGTERM")`.  The Except models the absence of a thrown error. -/
def cloudflaredClose (s : ProcState) : Except String ProcState :=
  Except.ok (procKill s)

/-- State of a localtunnel library tunnel object. -/
inductive LtState
  | opened
  | closed
deriving DecidableEq

/-- localtunnel's `tunnel.close()`: closes the tunnel, a no-op when already
closed; does not throw. -/
def ltTunnelClose : LtState → LtState
  | _ => .closed

/-- The close handle returned by localtunnelProvider.connect (lines 41-43):
`tunnel.close()`. -/
def ltClose (s : LtState) : Except String LtState :=
  Except.ok (ltTunnelClose s)

/-- The ngrok SDK session registry keyed by public URL; `ngrok.disconnect(url)`
removes the session for `url` and resolves even when none exists. -/
def ngrokDisconnect (url : String) (sessions : List String) : List String :=
  sessions.filter (fun u => u ≠ url)

/-- The close handle returned by ngrokProvider.connect (lines 41-43):
`await ngrok.disconnect(url)`. -/
def ngrokClose (url : String) (sessions : List String) :
    Except String (List String) :=
  Except.ok (ngrokDisconnect url sessions)

/-! ### Concrete environments used by witnesses and counterexamples -/

/-- No config file at all. -/
def envMissing : Env :=
  { file := fun _ => .missing, clock := fun _ => 0 }

/-- Config file holds invalid JSON at every read. -/
def envCorrupt : Env :=
  { file := fun _ => .corrupt "not json", clock := fun _ => 0 }

/-- A stable session whose access token expired at t = 100 while the clock
reads 1000. -/
def envStale : Env :=
  { file := fun _ => FileState.valid ⟨some "AT1", some "RT1", some 100⟩
    clock := fun _ => 1000 }

/-- A sibling process replaced the session between this process's initial
reads and its later re-reads: from the third read on, the file holds a fresh
non-expired session AT3/RT2. -/
def envSibling : Env :=
  { file := fun k =>
      if k < 3 then FileState.valid ⟨some "AT1", some "RT1", some 100⟩
      else FileState.valid ⟨some "AT3", some "RT2", some 5000⟩
    clock := fun _ => 1000 }

/-! ### Claims -/

/-- C10: loadConfig is total over every file state: a missing, unreadable or
invalid-JSON config file yields the empty config rather than an exception, so
getToken and getRefreshToken yield undefined and getValidToken (with no
override and no environment token) falls through to its null result. -/
theorem claim_C10 (raw : String) (ov et : Option String) (env : Env)
    (fetch : FetchOutcome) :
    loadConfig .missing = {} ∧
    loadConfig .unreadable = {} ∧
    loadConfig (.corrupt raw) = {} ∧
    getToken .missing = none ∧
    getToken .unreadable = none ∧
    getToken (.corrupt raw) = none ∧
    getRefreshToken .missing = none ∧
    getRefreshToken .unreadable = none ∧
    getRefreshToken (.corrupt raw) = none ∧
    (truthy ov = false → truthy et = false → env.file 0 = .missing →
      getValidToken ov et env fetch = ⟨none, [], [], 0⟩) ∧
    (truthy ov = false → truthy et = false → env.file 0 = .unreadable →
      getValidToken ov et env fetch = ⟨none, [], [], 0⟩) ∧
    (truthy ov = false → truthy et = false → env.file 0 = .corrupt raw →
      getValidToken ov et env fetch = ⟨none, [], [], 0⟩) := by
  refine ⟨rfl, rfl, rfl, rfl, rfl, rfl, rfl, rfl, rfl, ?_, ?_, ?_⟩ <;>
    intro hov het hf <;>
    · simp only [getValidToken, hov, het]
      simp [getTokenAt, Env.config, hf, loadConfig, truthy]

/-- Witness for C10 at a concrete corrupted file. -/
theorem claim_C10_witness :
    getValidToken none none envCorrupt (.networkError "x") = ⟨none, [], [], 0⟩ :=
  (claim_C10 "not json" none none envCorrupt
    (.networkError "x")).2.2.2.2.2.2.2.2.2.2.2 rfl rfl rfl

/-- C4: getValidToken resolves in fixed priority order: a truthy in-process
override is returned as-is (no read, no write, no sleep, no refresh call);
otherwise a truthy MCPIZE_TOKEN environment value is returned as-is; otherwise
the persisted token: absent/empty → null with no refresh; present and not
expired (60-second margin, missing expiresAt counts as expired) → returned
directly; present and expired → the outcome is exactly that of
refreshAccessToken (so null when the refresh fails). -/
theorem claim_C4 (ov et : Option String) (env : Env) (fetch : FetchOutcome) :
    (truthy ov = true → getValidToken ov et env fetch = ⟨ov, [], [], 0⟩) ∧
    (truthy ov = false → truthy et = true →
      getValidToken ov et env fetch = ⟨et, [], [], 0⟩) ∧
    (truthy ov = false → truthy et = false →
      truthy (getTokenAt env 0) = false →
      getValidToken ov et env fetch = ⟨none, [], [], 0⟩) ∧
    (truthy ov = false → truthy et = false →
      truthy (getTokenAt env 0) = true → isTokenExpiredAt env 1 = false →
      getValidToken ov et env fetch = ⟨getTokenAt env 0, [], [], 0⟩) ∧
    (truthy ov = false → truthy et = false →
      truthy (getTokenAt env 0) = true → isTokenExpiredAt env 1 = true →
      getValidToken ov et env fetch = (refreshAccessToken env fetch 2).1) ∧
    (∀ k, (env.config k).expiresAt = none → isTokenExpiredAt env k = true) ∧
    (∀ k e, (env.config k).expiresAt = some e → e ≠ 0 →
      (isTokenExpiredAt env k = true ↔ env.clock k > e - 60)) := by
  refine ⟨?_, ?_, ?_, ?_, ?_, ?_, ?_⟩
  · intro hov
    simp [getValidToken, hov]
  · intro hov het
    simp [getValidToken, hov, het]
  · intro hov het htok
    simp [getValidToken, hov, het, htok]
  · intro hov het htok hexp
    simp [getValidToken, hov, het, htok, hexp]
  · intro hov het htok hexp
    simp [getValidToken, hov, het, htok, hexp]
  · intro k hk
    simp [isTokenExpiredAt, hk]
  · intro k e hk he
    simp [isTokenExpiredAt, hk, he]

/-- Witness for C4: the override wins and suppresses reads and refresh calls. -/
theorem claim_C4_witness :
    getValidToken (some "OV") (some "ENV") envStale (.networkError "x") =
      ⟨some "OV", [], [], 0⟩ :=
  (claim_C4 (some "OV") (some "ENV") envStale (.networkError "x")).1 rfl

/-- The reuse-retry loop never writes and only returns a token it read from
the file: its result is either none or the token read at some index. -/
theorem refreshAccessToken_none_no_writes (env : Env) (fetch : FetchOutcome)
    (k : Nat) :
    (refreshAccessToken env fetch k).1.result = none →
    (refreshAccessToken env fetch k).1.writes = [] := by
  cases fetch with
  | networkError m =>
    simp only [refreshAccessToken]
    by_cases h0 : (¬ truthy (getRefreshTokenAt env k) = true ∨
        jsTrim ((getRefreshTokenAt env k).getD "") = "")
    · rw [if_pos h0]; intro _; rfl
    · rw [if_neg h0]; intro _; rfl
  | httpError status body =>
    simp only [refreshAccessToken]
    by_cases h0 : (¬ truthy (getRefreshTokenAt env k) = true ∨
        jsTrim ((getRefreshTokenAt env k).getD "") = "")
    · rw [if_pos h0]; intro _; rfl
    · rw [if_neg h0]
      by_cases h1 : isAlreadyUsedMsg (refreshErrorMessage status body) = true
      · rw [if_pos h1]; intro _; rfl
      · rw [if_neg h1]; intro _; rfl
  | success resp =>
    simp only [refreshAccessToken]
    by_cases h0 : (¬ truthy (getRefreshTokenAt env k) = true ∨
        jsTrim ((getRefreshTokenAt env k).getD "") = "")
    · rw [if_pos h0]; intro _; rfl
    · rw [if_neg h0]
      by_cases h1 : (truthy (getRefreshTokenAt env (k + 1)) = true ∧
          getRefreshTokenAt env (k + 1) ≠
            some ((getRefreshTokenAt env k).getD ""))
      · rw [if_pos h1]
        by_cases h2 : truthy (getTokenAt env (k + 2)) = true
        · rw [if_pos h2]
          by_cases h3 : isTokenExpiredAt env (k + 3) = false
          · rw [if_pos h3]; intro _; rfl
          · rw [if_neg h3]; intro hres; simp at hres
        · rw [if_neg h2]; intro hres; simp at hres
      · rw [if_neg h1]; intro hres; simp at hres

/-- C3 (amended): in the concurrency-aware session manager
(src/unnamed/part_006), every execution of getValidToken that returns null —
in particular every one whose refresh attempt fails with a non-reuse HTTP
error, a network error, or exhausted reuse-retries — performs no write to the
persisted session file; only explicit logout (clearSession) clears it there.
The older variant at src/src/lib/auth.ts does not satisfy this: it clears the
session whenever the refresh fails (see the counterexample). -/
theorem claim_C3 (ov et : Option String) (env : Env) (fetch : FetchOutcome) :
    (getValidToken ov et env fetch).result = none →
    (getValidToken ov et env fetch).writes = [] := by
  simp only [getValidToken]
  by_cases hov : truthy ov = true
  · rw [if_pos hov]; intro _; rfl
  · rw [if_neg hov]
    by_cases het : truthy et = true
    · rw [if_pos het]; intro _; rfl
    · rw [if_neg het]
      by_cases htok : (¬ truthy (getTokenAt env 0) = true)
      · rw [if_pos htok]; intro _; rfl
      · rw [if_neg htok]
        by_cases hexp : isTokenExpiredAt env 1 = false
        · rw [if_pos hexp]; intro _; rfl
        · rw [if_neg hexp]
          exact refreshAccessToken_none_no_writes env fetch 2

/-- Witness for C3: a transiently failing refresh (network error) yields null
and leaves the persisted session untouched. -/
theorem claim_C3_witness :
    (getValidToken none none envStale (.networkError "boom")).writes = [] :=
  claim_C3 none none envStale (.networkError "boom") (by decide)

/-- Counterexample to C3 as stated: the repository also contains an older
getValidToken (src/src/lib/auth.ts, lines 99-134) which, on the same failed
refresh (HTTP 500, expired persisted token), returns null but clears the
persisted session — a write emptying token, refreshToken and expiresAt — so it
is not the case that every getValidToken execution with a failed refresh
leaves the session file unchanged with logout as the only clearing path. -/
theorem claim_C3_counterexample :
    getValidTokenOld none none envStale (.httpError 500 none) =
      ⟨none, [⟨none, none, none⟩], [], 1⟩ := by
  decide

/-- The persisted refresh token observed at read `i` is truthy and differs
from the one this process sent (the change-detection condition of both the
reuse-retry loop and the optimistic-concurrency check). -/
abbrev changedAt (env : Env) (orig : String) (i : Nat) : Prop :=
  truthy (getRefreshTokenAt env i) = true ∧
    getRefreshTokenAt env i ≠ some orig

/-- Base case of the reuse-retry loop: fuel exhausted. -/
theorem reuseRetryLoop_zero (env : Env) (orig : String) (retry k : Nat) :
    reuseRetryLoop env orig 0 retry k = (none, k, []) := rfl

/-- A loop iteration that finds a changed refresh token together with a
truthy, unexpired access token returns that access token. -/
theorem reuseRetryLoop_hit (env : Env) (orig : String) (fuel retry k : Nat)
    (hc : changedAt env orig k)
    (ht : truthy (getTokenAt env (k + 1)) = true)
    (he : isTokenExpiredAt env (k + 2) = false) :
    reuseRetryLoop env orig (fuel + 1) retry k =
      (getTokenAt env (k + 1), k + 3, [500 * (retry + 1)]) := by
  simp only [reuseRetryLoop]
  rw [if_pos hc, if_pos ht, if_pos he]

/-- A loop iteration that does not see a changed refresh token sleeps and
moves on, consuming one read. -/
theorem reuseRetryLoop_skip (env : Env) (orig : String) (fuel retry k : Nat)
    (hc : ¬ changedAt env orig k) :
    reuseRetryLoop env orig (fuel + 1) retry k =
      ((reuseRetryLoop env orig fuel (retry + 1) (k + 1)).1,
       (reuseRetryLoop env orig fuel (retry + 1) (k + 1)).2.1,
       500 * (retry + 1) ::
         (reuseRetryLoop env orig fuel (retry + 1) (k + 1)).2.2) := by
  simp only [reuseRetryLoop]
  rw [if_neg hc]

/-- Reduction of refreshAccessToken on an HTTP failure carrying the
"Already Used" signal: one fetch, no writes, and the reuse-retry loop decides
result and sleeps. -/
theorem refreshAccessToken_reuse_eq (env : Env) (status : Nat)
    (body : Option RefreshError) (k : Nat) (orig : String)
    (h0 : getRefreshTokenAt env k = some orig)
    (h1 : orig ≠ "") (h2 : jsTrim orig ≠ "")
    (hmsg : isAlreadyUsedMsg (refreshErrorMessage status body) = true) :
    refreshAccessToken env (.httpError status body) k =
      (⟨(reuseRetryLoop env orig 3 0 (k + 1)).1, [],
        (reuseRetryLoop env orig 3 0 (k + 1)).2.2, 1⟩,
       (reuseRetryLoop env orig 3 0 (k + 1)).2.1) := by
  simp only [refreshAccessToken, h0, Option.getD_some]
  rw [if_neg (by simp [truthy, h1, h2]), if_pos hmsg]

/-- C1: when the refresh endpoint fails with an error message carrying the
"already used" / "refresh_token_reuse" signal (detected case-insensitively),
refreshAccessToken issues exactly one refresh HTTP call and never writes; it
re-reads the persisted refresh token up to 3 times, sleeping 500, 1000, 1500 ms
before the successive re-reads; as soon as a re-read shows a changed refresh
token whose accompanying access token is truthy and not expired, that
persisted access token is returned (after only the sleeps so far); and if the
refresh token never changes across all 3 re-reads the result is null after all
three sleeps. -/
theorem claim_C1 (env : Env) (status : Nat) (body : Option RefreshError)
    (k : Nat) (orig : String)
    (h0 : getRefreshTokenAt env k = some orig)
    (h1 : orig ≠ "") (h2 : jsTrim orig ≠ "")
    (hmsg : isAlreadyUsedMsg (refreshErrorMessage status body) = true) :
    ((refreshAccessToken env (.httpError status body) k).1.fetches = 1 ∧
     (refreshAccessToken env (.httpError status body) k).1.writes = []) ∧
    (changedAt env orig (k + 1) →
      truthy (getTokenAt env (k + 2)) = true →
      isTokenExpiredAt env (k + 3) = false →
      (refreshAccessToken env (.httpError status body) k).1.result =
        getTokenAt env (k + 2) ∧
      (refreshAccessToken env (.httpError status body) k).1.sleeps = [500]) ∧
    (¬ changedAt env orig (k + 1) → changedAt env orig (k + 2) →
      truthy (getTokenAt env (k + 3)) = true →
      isTokenExpiredAt env (k + 4) = false →
      (refreshAccessToken env (.httpError status body) k).1.result =
        getTokenAt env (k + 3) ∧
      (refreshAccessToken env (.httpError status body) k).1.sleeps =
        [500, 1000]) ∧
    (¬ changedAt env orig (k + 1) → ¬ changedAt env orig (k + 2) →
      changedAt env orig (k + 3) →
      truthy (getTokenAt env (k + 4)) = true →
      isTokenExpiredAt env (k + 5) = false →
      (refreshAccessToken env (.httpError status body) k).1.result =
        getTokenAt env (k + 4) ∧
      (refreshAccessToken env (.httpError status body) k).1.sleeps =
        [500, 1000, 1500]) ∧
    (¬ changedAt env orig (k + 1) → ¬ changedAt env orig (k + 2) →
      ¬ changedAt env orig (k + 3) →
      (refreshAccessToken env (.httpError status body) k).1.result = none ∧
      (refreshAccessToken env (.httpError status body) k).1.sleeps =
        [500, 1000, 1500]) := by
  rw [refreshAccessToken_reuse_eq env status body k orig h0 h1 h2 hmsg]
  refine ⟨⟨rfl, rfl⟩, ?_, ?_, ?_, ?_⟩
  · intro hc ht he
    rw [reuseRetryLoop_hit env orig 2 0 (k + 1) hc ht he]
    exact ⟨rfl, by norm_num⟩
  · intro hn1 hc ht he
    rw [reuseRetryLoop_skip env orig 2 0 (k + 1) hn1,
      reuseRetryLoop_hit env orig 1 1 (k + 2) hc ht he]
    exact ⟨rfl, by norm_num⟩
  · intro hn1 hn2 hc ht he
    rw [reuseRetryLoop_skip env orig 2 0 (k + 1) hn1,
      reuseRetryLoop_skip env orig 1 1 (k + 2) hn2,
      reuseRetryLoop_hit env orig 0 2 (k + 3) hc ht he]
    exact ⟨rfl, by norm_num⟩
  · intro hn1 hn2 hn3
    rw [reuseRetryLoop_skip env orig 2 0 (k + 1) hn1,
      reuseRetryLoop_skip env orig 1 1 (k + 2) hn2,
      reuseRetryLoop_skip env orig 0 2 (k + 3) hn3,
      reuseRetryLoop_zero env orig 3 (k + 4)]
    exact ⟨rfl, by norm_num⟩

/-- Environment for the C1 witness: the initial read shows the stale session
RT1; from the first re-read on, a sibling has persisted the fresh session
AT3/RT2 (not expired at clock 1000). -/
def envC1 : Env :=
  { file := fun k =>
      if k = 0 then FileState.valid ⟨some "AT1", some "RT1", some 100⟩
      else FileState.valid ⟨some "AT3", some "RT2", some 5000⟩
    clock := fun _ => 1000 }

/-- Witness for C1: an HTTP 400 whose message says "Token Already Used", with
the sibling session visible at the first re-read, yields the sibling's access
token AT3 after a single 500 ms sleep, with one fetch and no writes. -/
theorem claim_C1_witness :
    (refreshAccessToken envC1
      (.httpError 400 (some { msg := some "Token Already Used" })) 0).1.result =
        some "AT3" ∧
    (refreshAccessToken envC1
      (.httpError 400 (some { msg := some "Token Already Used" })) 0).1.sleeps =
        [500] ∧
    (refreshAccessToken envC1
      (.httpError 400 (some { msg := some "Token Already Used" })) 0).1.fetches = 1 := by
  have h := claim_C1 envC1 400 (some { msg := some "Token Already Used" }) 0
    "RT1" (by decide) (by decide) (by decide) (by decide)
  have hb := h.2.1 (by decide) (by decide) (by decide)
  exact ⟨hb.1.trans (by decide), hb.2, h.1.1⟩

/-- Reduction of refreshAccessToken on HTTP success, past the missing/blank
short-circuit. -/
theorem refreshAccessToken_success_eq (env : Env) (resp : RefreshResponse)
    (k : Nat) (orig : String)
    (h0 : getRefreshTokenAt env k = some orig)
    (h1 : orig ≠ "") (h2 : jsTrim orig ≠ "") :
    refreshAccessToken env (.success resp) k =
      (if changedAt env orig (k + 1) then
        if truthy (getTokenAt env (k + 2)) = true then
          if isTokenExpiredAt env (k + 3) = false then
            (⟨getTokenAt env (k + 2), [], [], 1⟩, k + 4)
          else
            (⟨some resp.access_token,
              [(setSessionAt env (k + 4) resp.access_token resp.refresh_token
                resp.expires_in).1], [], 1⟩,
             (setSessionAt env (k + 4) resp.access_token resp.refresh_token
                resp.expires_in).2)
        else
          (⟨some resp.access_token,
            [(setSessionAt env (k + 3) resp.access_token resp.refresh_token
              resp.expires_in).1], [], 1⟩,
           (setSessionAt env (k + 3) resp.access_token resp.refresh_token
              resp.expires_in).2)
      else
        (⟨some resp.access_token,
          [(setSessionAt env (k + 2) resp.access_token resp.refresh_token
            resp.expires_in).1], [], 1⟩,
         (setSessionAt env (k + 2) resp.access_token resp.refresh_token
            resp.expires_in).2)) := by
  simp only [refreshAccessToken, h0, Option.getD_some]
  rw [if_neg (by simp [truthy, h1, h2])]

/-- C2: on HTTP success, refreshAccessToken re-reads the persisted refresh
token; if it changed from the one sent and the persisted access token is
truthy and not expired, that persisted token is returned with no write;
otherwise (unchanged, or changed with a falsy or expired access token) the
response is persisted by a single setSession write — token, refreshToken and
expiresAt = clock + expires_in set together over the loaded config — and the
response's access token is returned.  Exactly one refresh HTTP call happens. -/
theorem claim_C2 (env : Env) (resp : RefreshResponse) (k : Nat) (orig : String)
    (h0 : getRefreshTokenAt env k = some orig)
    (h1 : orig ≠ "") (h2 : jsTrim orig ≠ "") :
    (changedAt env orig (k + 1) →
      truthy (getTokenAt env (k + 2)) = true →
      isTokenExpiredAt env (k + 3) = false →
      (refreshAccessToken env (.success resp) k).1.result =
        getTokenAt env (k + 2) ∧
      (refreshAccessToken env (.success resp) k).1.writes = [] ∧
      (refreshAccessToken env (.success resp) k).1.fetches = 1) ∧
    (¬ changedAt env orig (k + 1) →
      (refreshAccessToken env (.success resp) k).1.result =
        some resp.access_token ∧
      (refreshAccessToken env (.success resp) k).1.writes =
        [{ env.config (k + 2) with
            token := some resp.access_token
            refreshToken := some resp.refresh_token
            expiresAt := some (env.clock (k + 2) + resp.expires_in) }] ∧
      (refreshAccessToken env (.success resp) k).1.fetches = 1) ∧
    (changedAt env orig (k + 1) →
      ¬ truthy (getTokenAt env (k + 2)) = true →
      (refreshAccessToken env (.success resp) k).1.result =
        some resp.access_token ∧
      (refreshAccessToken env (.success resp) k).1.writes =
        [{ env.config (k + 3) with
            token := some resp.access_token
            refreshToken := some resp.refresh_token
            expiresAt := some (env.clock (k + 3) + resp.expires_in) }] ∧
      (refreshAccessToken env (.success resp) k).1.fetches = 1) ∧
    (changedAt env orig (k + 1) →
      truthy (getTokenAt env (k + 2)) = true →
      isTokenExpiredAt env (k + 3) = true →
      (refreshAccessToken env (.success resp) k).1.result =
        some resp.access_token ∧
      (refreshAccessToken env (.success resp) k).1.writes =
        [{ env.config (k + 4) with
            token := some resp.access_token
            refreshToken := some resp.refresh_token
            expiresAt := some (env.clock (k + 4) + resp.expires_in) }] ∧
      (refreshAccessToken env (.success resp) k).1.fetches = 1) := by
  rw [refreshAccessToken_success_eq env resp k orig h0 h1 h2]
  refine ⟨?_, ?_, ?_, ?_⟩
  · intro hc ht he
    rw [if_pos hc, if_pos ht, if_pos he]
    exact ⟨rfl, rfl, rfl⟩
  · intro hn
    rw [if_neg hn]
    exact ⟨rfl, rfl, rfl⟩
  · intro hc hnt
    rw [if_pos hc, if_neg hnt]
    exact ⟨rfl, rfl, rfl⟩
  · intro hc ht he
    rw [if_pos hc, if_pos ht,
      if_neg (by simp [he] : ¬ isTokenExpiredAt env (k + 3) = false)]
    exact ⟨rfl, rfl, rfl⟩

/-- Witness for C2: no sibling interfered, so the AT2/RT2 response is saved in
one write with expiry 1000 + 3600 and AT2 is returned. -/
theorem claim_C2_witness :
    (refreshAccessToken envStale (.success ⟨"AT2", "RT2", 3600⟩) 0).1.result =
      some "AT2" ∧
    (refreshAccessToken envStale (.success ⟨"AT2", "RT2", 3600⟩) 0).1.writes =
      [⟨some "AT2", some "RT2", some 4600⟩] := by
  have h := (claim_C2 envStale ⟨"AT2", "RT2", 3600⟩ 0 "RT1" (by decide)
    (by decide) (by decide)).2.1 (by decide)
  exact ⟨h.1, h.2.1.trans (by decide)⟩

/-- The temporary file written by saveConfig is never the config file itself:
its name carries the `.tmp` suffix appended to `config.` plus the nonce, so
the lengths cannot agree unless the nonce is empty, and `config..tmp` still
differs from `config.json`. -/
theorem tmpFile_ne_configFile (nonce : String) : tmpFile nonce ≠ CONFIG_FILE := by
  intro h
  have hl : (tmpFile nonce).length = CONFIG_FILE.length := congrArg String.length h
  unfold tmpFile CONFIG_FILE at hl
  rw [String.length_append, String.length_append] at hl
  have h7 : ("config." : String).length = 7 := rfl
  have h4 : (".tmp" : String).length = 4 := rfl
  have h11 : ("config.json" : String).length = 11 := rfl
  rw [h7, h4, h11] at hl
  have hz : nonce.length = 0 := by omega
  obtain ⟨d⟩ := nonce
  have hd : d = [] := List.length_eq_zero.mp hz
  subst hd
  exact absurd h (by decide)

/-- C5: setSession always hands saveConfig a single config carrying the access
token, refresh token and expiresAt together (never a partial update), and
saveConfig always writes the full content to a fresh temporary file (whose
name differs from the config file), chmods it, and then renames it over the
config file: no operation ever writes the config file directly, and the only
rename targeting the config file has the fully-written temp file as source —
so a concurrent reader never observes a half-written session file. -/
theorem claim_C5 (prev : MCPizeConfig) (now expiresIn : Int)
    (a r nonce : String) (cfg : MCPizeConfig) :
    (∃ c, setSession prev now a r expiresIn nonce = saveConfig nonce c ∧
      c.token = some a ∧ c.refreshToken = some r ∧
      c.expiresAt = some (now + expiresIn)) ∧
    saveConfig nonce cfg =
      [FsOp.writeFile (tmpFile nonce) cfg, FsOp.chmod (tmpFile nonce),
       FsOp.rename (tmpFile nonce) CONFIG_FILE] ∧
    tmpFile nonce ≠ CONFIG_FILE ∧
    (∀ p c, FsOp.writeFile p c ∈ saveConfig nonce cfg →
      p ≠ CONFIG_FILE ∧ c = cfg) ∧
    (∀ s d, FsOp.rename s d ∈ saveConfig nonce cfg →
      d = CONFIG_FILE ∧ s = tmpFile nonce) := by
  refine ⟨⟨_, rfl, rfl, rfl, rfl⟩, rfl, tmpFile_ne_configFile nonce, ?_, ?_⟩
  · intro p c hmem
    simp only [saveConfig, List.mem_cons, List.not_mem_nil, or_false] at hmem
    rcases hmem with h | h | h
    · injection h with hp hc
      exact ⟨hp ▸ tmpFile_ne_configFile nonce, hc⟩
    · cases h
    · cases h
  · intro s d hmem
    simp only [saveConfig, List.mem_cons, List.not_mem_nil, or_false] at hmem
    rcases hmem with h | h | h
    · cases h
    · cases h
    · injection h with hs hd
      exact ⟨hd, hs⟩

/-- Witness for C5 at a concrete nonce and session: the temp file is fresh,
and the one write operation of the concrete saveConfig trace carries the full
config and does not target the config file. -/
theorem claim_C5_witness :
    tmpFile "ab12cd34ef56ab78" ≠ CONFIG_FILE ∧
    ("config.ab12cd34ef56ab78.tmp" ≠ CONFIG_FILE ∧
      (⟨some "AT2", some "RT2", some 4600⟩ : MCPizeConfig) =
        ⟨some "AT2", some "RT2", some 4600⟩) := by
  have h := claim_C5 ⟨some "AT1", some "RT1", some 100⟩ 1000 3600 "AT2" "RT2"
    "ab12cd34ef56ab78" ⟨some "AT2", some "RT2", some 4600⟩
  exact ⟨h.2.2.1,
    h.2.2.2.1 "config.ab12cd34ef56ab78.tmp" ⟨some "AT2", some "RT2", some 4600⟩
      (by decide)⟩

/-- C6: createTunnel without a provider hint auto-selects in the fixed
priority order cloudflared → ngrok → localtunnel; localtunnel is chosen
exactly when both the cloudflared and ngrok availability probes report false,
and then (and only then) the fallback warning is printed; auto-selection never
fails, and exactly one provider's connect is invoked. -/
theorem claim_C6 (cfAvail ngAvail : Bool) :
    (cfAvail = true →
      createTunnel none cfAvail ngAvail = .ok ⟨.cloudflared, false⟩) ∧
    (cfAvail = false → ngAvail = true →
      createTunnel none cfAvail ngAvail = .ok ⟨.ngrok, false⟩) ∧
    (cfAvail = false → ngAvail = false →
      createTunnel none cfAvail ngAvail = .ok ⟨.localtunnel, true⟩) ∧
    (createTunnel none cfAvail ngAvail = .ok ⟨.localtunnel, true⟩ ↔
      cfAvail = false ∧ ngAvail = false) ∧
    (∃ o, createTunnel none cfAvail ngAvail = Except.ok o) := by
  cases cfAvail <;> cases ngAvail <;>
    refine ⟨?_, ?_, ?_, ?_, ⟨_, rfl⟩⟩ <;>
      simp [createTunnel, detectBestProvider]

/-- Witness for C6: both probes false selects localtunnel with the warning. -/
theorem claim_C6_witness :
    createTunnel none false false = .ok ⟨.localtunnel, true⟩ :=
  (claim_C6 false false).2.2.1 rfl rfl

/-- Events that arrive in time but settle nothing are skipped by the connect
promise. -/
theorem cloudflaredConnect_skip (pre tail : List TimedEvent)
    (h : ∀ x ∈ pre, x.time < 30000 ∧ settleOf x.ev = none) :
    cloudflaredConnect (pre ++ tail) = cloudflaredConnect tail := by
  induction pre with
  | nil => rfl
  | cons x xs ih =>
    have hx := h x (List.mem_cons_self x xs)
    simp only [List.cons_append, cloudflaredConnect]
    rw [if_pos hx.1, hx.2]
    exact ih fun y hy => h y (List.mem_cons_of_mem x hy)

/-- With no settling event before the 30-second mark, the startup timer kills
the process and the promise rejects with the timeout error. -/
theorem cloudflaredConnect_timeout (events : List TimedEvent)
    (h : ∀ x ∈ events, x.time < 30000 → settleOf x.ev = none) :
    cloudflaredConnect events = (.timedOut, true) := by
  induction events with
  | nil => rfl
  | cons x xs ih =>
    simp only [cloudflaredConnect]
    by_cases hx : x.time < 30000
    · rw [if_pos hx, h x (List.mem_cons_self x xs) hx]
      exact ih fun y hy hlt => h y (List.mem_cons_of_mem x hy) hlt
    · rw [if_neg hx]

/-- C7: cloudflaredProvider.connect settles exactly once: with the first
settling event of the time-ordered output stream when it arrives before the
30-second startup timer — a stderr chunk resolves with its first
trycloudflare.com URL match, an 'error' event rejects with the spawn error, a
'close' event rejects with the exit code — and when no event settles in time,
the timer kills the process and rejects with the timeout error; every call
ends in exactly one of these four outcomes. -/
theorem claim_C7 (events pre rest : List TimedEvent) (e : TimedEvent) :
    (events = pre ++ e :: rest →
      (∀ x ∈ pre, x.time < 30000 ∧ settleOf x.ev = none) →
      e.time < 30000 →
      ((∀ chunk url, e.ev = .stderrData chunk →
          findCloudflareUrl chunk = some url →
          cloudflaredConnect events = (.connected url, false)) ∧
       (∀ m, e.ev = .errorEvent m →
          cloudflaredConnect events =
            (.failedSpawn ("Failed to start cloudflared: " ++ m), false)) ∧
       (∀ c, e.ev = .closeEvent c →
          cloudflaredConnect events = (.failedExit c, false)))) ∧
    ((∀ x ∈ events, x.time < 30000 → settleOf x.ev = none) →
      cloudflaredConnect events = (.timedOut, true)) ∧
    ((∃ u, (cloudflaredConnect events).1 = .connected u) ∨
     (∃ m, (cloudflaredConnect events).1 = .failedSpawn m) ∨
     (∃ c, (cloudflaredConnect events).1 = .failedExit c) ∨
     (cloudflaredConnect events).1 = .timedOut) := by
  refine ⟨?_, fun h => cloudflaredConnect_timeout events h, ?_⟩
  · intro hev hpre ht
    subst hev
    rw [cloudflaredConnect_skip pre (e :: rest) hpre]
    refine ⟨?_, ?_, ?_⟩
    · intro chunk url hchunk hurl
      simp only [cloudflaredConnect]
      rw [if_pos ht, hchunk]
      simp [settleOf, hurl]
    · intro m hm
      simp only [cloudflaredConnect]
      rw [if_pos ht, hm]
      simp [settleOf]
    · intro c hc
      simp only [cloudflaredConnect]
      rw [if_pos ht, hc]
      simp [settleOf]
  · rcases ho : (cloudflaredConnect events).1 with u | m | c
    · exact Or.inl ⟨u, rfl⟩
    · exact Or.inr (Or.inl ⟨m, rfl⟩)
    · exact Or.inr (Or.inr (Or.inl ⟨c, rfl⟩))
    · exact Or.inr (Or.inr (Or.inr rfl))

/-- Witness for C7: a startup log line settles nothing; the second chunk
contains the public URL and resolves the promise with it. -/
theorem claim_C7_witness :
    cloudflaredConnect
      [⟨150, .stderrData "2025 INF Requesting new quick tunnel"⟩,
       ⟨900, .stderrData "INF +  https://fluffy-alpaca.trycloudflare.com  +"⟩] =
      (.connected "https://fluffy-alpaca.trycloudflare.com", false) := by
  have h := (claim_C7
    [⟨150, .stderrData "2025 INF Requesting new quick tunnel"⟩,
     ⟨900, .stderrData "INF +  https://fluffy-alpaca.trycloudflare.com  +"⟩]
    [⟨150, .stderrData "2025 INF Requesting new quick tunnel"⟩] []
    ⟨900, .stderrData "INF +  https://fluffy-alpaca.trycloudflare.com  +"⟩).1
    rfl (by decide) (by decide)
  exact h.1 "INF +  https://fluffy-alpaca.trycloudflare.com  +"
    "https://fluffy-alpaca.trycloudflare.com" rfl (by decide)

/-- Out of fuel: the retry loop throws, carrying the last recorded error. -/
theorem ltConnectAux_zero (attempts : Nat → Except String String)
    (attempt : Nat) (lastError : Option String) :
    ltConnectAux attempts 0 attempt lastError =
      (Except.error ("Failed to create tunnel after 3 attempts: " ++
        lastError.getD "undefined"), []) := rfl

/-- A successful attempt returns its connection immediately, with no further
sleeps. -/
theorem ltConnectAux_ok (attempts : Nat → Except String String)
    (fuel attempt : Nat) (lastError : Option String) (u : String)
    (h : attempts attempt = .ok u) :
    ltConnectAux attempts (fuel + 1) attempt lastError = (.ok u, []) := by
  unfold ltConnectAux
  rw [h]

/-- A failed attempt records the error, sleeps 2000 ms when it is not the
final attempt, and recurses. -/
theorem ltConnectAux_err (attempts : Nat → Except String String)
    (fuel attempt : Nat) (lastError : Option String) (e : String)
    (h : attempts attempt = .error e) :
    ltConnectAux attempts (fuel + 1) attempt lastError =
      (if attempt < 3 then
        ((ltConnectAux attempts fuel (attempt + 1) (some e)).1,
         2000 :: (ltConnectAux attempts fuel (attempt + 1) (some e)).2)
      else ltConnectAux attempts fuel (attempt + 1) (some e)) := by
  conv_lhs => rw [ltConnectAux]
  rw [h]

/-- C8: localtunnelProvider.isAvailable is unconditionally true, and connect
tries the underlying localtunnel call up to 3 times with a fixed 2000 ms delay
between attempts, returning the first successful connection; when all 3
attempts fail it throws an error carrying the last attempt's error message. -/
theorem claim_C8 (attempts : Nat → Except String String) (u e1 e2 e3 : String) :
    localtunnelIsAvailable = true ∧
    (attempts 1 = .ok u → localtunnelConnect attempts = (.ok u, [])) ∧
    (attempts 1 = .error e1 → attempts 2 = .ok u →
      localtunnelConnect attempts = (.ok u, [2000])) ∧
    (attempts 1 = .error e1 → attempts 2 = .error e2 → attempts 3 = .ok u →
      localtunnelConnect attempts = (.ok u, [2000, 2000])) ∧
    (attempts 1 = .error e1 → attempts 2 = .error e2 → attempts 3 = .error e3 →
      localtunnelConnect attempts =
        (.error ("Failed to create tunnel after 3 attempts: " ++ e3),
         [2000, 2000])) := by
  refine ⟨rfl, ?_, ?_, ?_, ?_⟩
  · intro h1
    unfold localtunnelConnect
    rw [ltConnectAux_ok attempts 2 1 none u h1]
  · intro h1 h2
    unfold localtunnelConnect
    rw [ltConnectAux_err attempts 2 1 none e1 h1,
      if_pos (by norm_num : (1 : Nat) < 3),
      ltConnectAux_ok attempts 1 2 (some e1) u h2]
  · intro h1 h2 h3
    unfold localtunnelConnect
    rw [ltConnectAux_err attempts 2 1 none e1 h1,
      if_pos (by norm_num : (1 : Nat) < 3),
      ltConnectAux_err attempts 1 2 (some e1) e2 h2,
      if_pos (by norm_num : (2 : Nat) < 3),
      ltConnectAux_ok attempts 0 3 (some e2) u h3]
  · intro h1 h2 h3
    unfold localtunnelConnect
    rw [ltConnectAux_err attempts 2 1 none e1 h1,
      if_pos (by norm_num : (1 : Nat) < 3),
      ltConnectAux_err attempts 1 2 (some e1) e2 h2,
      if_pos (by norm_num : (2 : Nat) < 3),
      ltConnectAux_err attempts 0 3 (some e2) e3 h3,
      if_neg (by norm_num : ¬ (3 : Nat) < 3),
      ltConnectAux_zero attempts 4 (some e3)]
    rfl

/-- Witness for C8: first attempt fails with a 502, second succeeds after one
2000 ms sleep. -/
theorem claim_C8_witness :
    localtunnelConnect
      (fun n => if n = 1 then .error "connection refused: 502"
        else .ok "https://tidy-otter-12.loca.lt") =
      (.ok "https://tidy-otter-12.loca.lt", [2000]) :=
  ((claim_C8
    (fun n => if n = 1 then .error "connection refused: 502"
      else .ok "https://tidy-otter-12.loca.lt")
    "https://tidy-otter-12.loca.lt" "connection refused: 502" "" "").2.2.1
    rfl rfl)

/-- C9: the close handles produced by the three providers are idempotent and
never throw: cloudflared delegates to ChildProcess.kill (a no-op on an exited
process), localtunnel to tunnel.close, and ngrok to ngrok.disconnect keyed by
URL; closing twice, or closing a connection whose process already exited,
completes without an error. -/
theorem claim_C9 :
    (∀ s, ∃ t, cloudflaredClose s = Except.ok t ∧
      cloudflaredClose t = Except.ok t) ∧
    cloudflaredClose ProcState.exited = Except.ok ProcState.exited ∧
    (∀ s, ∃ t, ltClose s = Except.ok t ∧ ltClose t = Except.ok t) ∧
    ltClose LtState.closed = Except.ok LtState.closed ∧
    (∀ url sessions, ∃ s2, ngrokClose url sessions = Except.ok s2 ∧
      ngrokClose url s2 = Except.ok s2) := by
  refine ⟨fun s => ⟨.exited, rfl, rfl⟩, rfl, fun s => ⟨.closed, rfl, rfl⟩, rfl,
    fun url sessions => ⟨ngrokDisconnect url sessions, rfl, ?_⟩⟩
  simp [ngrokClose, ngrokDisconnect, List.filter_filter]

end MCPizeCLI
